import Mathlib

/-!
Verification of the mindnlp-PatchTSMixer repository material: a OneFormer
segmentation-inference notebook, a TAPAS table-question-answering notebook
(both in `applications/OneFormer/Inference_with_OneFormer.ipynb`), and the
compiled Jukebox test-suite artifact
(`tests/transformers/models/jukebox/test_modeling_jukebox.cpython-39-pytest-7.2.0.pyc`).

The development shallowly embeds the authored program text: notebook cells and
test-method bodies become explicit statement lists, and the two pieces of
genuine authored logic (the TAPAS answer-assembly cell and the segmentation
legend-drawing loops) become executable Lean functions mirrored from the
Python source. Theorems at the end settle the specification claims.
-/

set_option maxHeartbeats 1000000
set_option maxRecDepth 100000

namespace MindnlpRepo

/-! ## Decimal-representation helpers

The legend labels in the drawing functions are f-strings
`f"{segment_label}-{instances_counter[segment_label_id]}"`; reasoning about
their distinctness needs injectivity of the decimal rendering `Nat.repr`.
We prove it through an explicit accumulator-style decimal decoder.
-/

/-- Numeric value of a decimal digit character. -/
def decDigit (c : Char) : Nat := c.toNat - Char.toNat '0'

/-- Accumulator-style decode of a decimal digit list. -/
def decList (a : Nat) : List Char → Nat
  | [] => a
  | c :: cs => decList (10 * a + decDigit c) cs

/-- Decimal magnitude of a natural number: ten to the number of its decimal
digits. -/
def pmag (n : Nat) : Nat :=
  if n < 10 then 10 else 10 * pmag (n / 10)
termination_by n
decreasing_by
  apply Nat.div_lt_self <;> omega

/-! ## TAPAS answer assembly

Embedding of the answer-parsing cell of the TAPAS notebook: the loop over
`predicted_answer_coordinates` that builds `answers`, and the final print
loop over `range(len(questions))` that prints the aggregation index exactly
for aggregation-type questions.
-/

/-- Value appended to `answers` by the TAPAS answer-parsing cell: either the
single cell value `table.iat[coordinates[0]]` or the list `cell_values` of
all cell values. -/
inductive Answer where
  | single (value : String)
  | multi (values : List String)
  deriving DecidableEq, Repr

/-- Shallow embedding of the answer-parsing loop of the TAPAS notebook.
`iat` stands for the pandas `table.iat` cell accessor; each element of
`predicted_answer_coordinates` is the coordinate list for one question. -/
def parseAnswers (iat : Nat × Nat → String)
    (predicted_answer_coordinates : List (List (Nat × Nat))) : List Answer :=
  predicted_answer_coordinates.map fun coordinates =>
    if coordinates.length = 1 then
      Answer.single (iat coordinates.head!)
    else
      Answer.multi (coordinates.map fun coordinate => iat coordinate)

/-- Shape of one printed answer line from the final print loop: an
aggregation-type question (nonzero aggregation index) prints the index
together with the answer, a plain question prints only the answer. -/
inductive PrintedAnswer where
  | withAgg (num : Int) (answer : Answer)
  | plain (answer : Answer)
  deriving DecidableEq, Repr

/-- Whether a printed line includes the aggregation index. -/
def PrintedAnswer.includesAgg : PrintedAnswer → Bool
  | .withAgg _ _ => true
  | .plain _ => false

/-- Shallow embedding of the final print loop of the TAPAS notebook:
`for i in range(len(questions))`, printing the aggregation index exactly
when `numbers[i] != 0`. -/
def printAnswers (questions : List String) (numbers : List Int)
    (answers : List Answer) : List (String × PrintedAnswer) :=
  (List.range questions.length).map fun i =>
    (questions.getD i "",
      if numbers.getD i 0 ≠ 0 then
        PrintedAnswer.withAgg (numbers.getD i 0) (answers.getD i (Answer.multi []))
      else
        PrintedAnswer.plain (answers.getD i (Answer.multi [])))

/-! ## Segmentation legend drawing

Embedding of the legend-construction loops of `draw_panoptic_segmentation`
and `draw_instance_segmentation` in the OneFormer notebook. Colors are
abstracted to the `viridis` colormap argument; class names to `id2label`.
-/

/-- Entry of the `segments_info` list consumed by the drawing functions. -/
structure SegmentInfo where
  id : Nat
  label_id : Nat
  deriving DecidableEq, Repr

/-- Legend-construction loop, textually identical in
`draw_panoptic_segmentation` and `draw_instance_segmentation`: for each
segment the label is the f-string
`segment_label ++ "-" ++ instances_counter[segment_label_id]` and the
counter for that `label_id` is incremented after use; the emitted patch
pairs `viridis(segment_id)` with the label. -/
def legendLoop (id2label : Nat → String) (viridis : Nat → Nat)
    (instances_counter : Nat → Nat) : List SegmentInfo → List (Nat × String)
  | [] => []
  | segment :: rest =>
    let segment_label := id2label segment.label_id
    let label := segment_label ++ "-" ++ Nat.repr (instances_counter segment.label_id)
    (viridis segment.id, label) ::
      legendLoop id2label viridis
        (fun k => if k = segment.label_id then instances_counter k + 1
                  else instances_counter k)
        rest

/-- Legend patches produced by `draw_panoptic_segmentation`: the loop starts
from the empty `defaultdict(int)` counter. -/
def draw_panoptic_segmentation (id2label : Nat → String) (viridis : Nat → Nat)
    (segments_info : List SegmentInfo) : List (Nat × String) :=
  legendLoop id2label viridis (fun _ => 0) segments_info

/-- Legend patches produced by `draw_instance_segmentation`; its loop is
textually identical to the panoptic one. -/
def draw_instance_segmentation (id2label : Nat → String) (viridis : Nat → Nat)
    (segments_info : List SegmentInfo) : List (Nat × String) :=
  legendLoop id2label viridis (fun _ => 0) segments_info

/-! ## Statement-level embedding of the authored code

Every authored code unit (notebook cell and test method) is embedded as a
list of statements. Each statement records the names it reads and binds at
its own level, the string literals it mentions, and the library calls it
performs together with their externally visible effect class. Control
structure (conditionals, loops, with-blocks, function and class definitions)
is kept explicitly so that claims about decision logic, error handling and
concurrency are contingent on the embedded program text.
-/

/-- Externally visible effect class of one library call. -/
inductive Effect where
  | pure
  | modelApi
  | harness
  | httpDownload
  | fileWrite
  | spawnThread
  deriving DecidableEq, Repr

/-- One call into a library as written in the source: the dotted callee
name, the string literals passed as arguments, and its effect class. -/
structure Call where
  callee : String
  stringArgs : List String
  effect : Effect
  deriving DecidableEq, Repr

/-- Comparison shape of one unittest assertion in the compiled test
artifact. -/
inductive AssertKind where
  | eqExpected
  | inExpectedList
  | allcloseExpected
  | isNone
  deriving DecidableEq, Repr

/-- Statement forms appearing in the authored notebooks and tests. -/
inductive Stmt where
  | imprt (module : String) (binds : List String)
  | assign (targets reads lits : List String) (calls : List Call)
  | exprStmt (reads : List String) (calls : List Call)
  | ret (reads : List String)
  | funcDef (name : String) (decorators params : List String) (body : List Stmt)
  | classDef (name : String) (decorators bases : List String) (body : List Stmt)
  | ifElse (reads : List String) (thenBody elseBody : List Stmt)
  | forIn (vars reads : List String) (body : List Stmt)
  | withBlock (ctx : Call) (body : List Stmt)
  | assertStmt (method : String) (kind : AssertKind) (reads expected : List String)
  | tryExcept (body handler : List Stmt)
  | asyncSpawn (call : Call)

/-- A named authored code unit: one notebook cell or one test method. -/
structure CodeUnit where
  name : String
  body : List Stmt

mutual

/-- A statement together with all statements nested inside it. -/
def Stmt.flatten : Stmt → List Stmt
  | s@(.funcDef _ _ _ body) => s :: flattenList body
  | s@(.classDef _ _ _ body) => s :: flattenList body
  | s@(.ifElse _ thenBody elseBody) =>
      s :: (flattenList thenBody ++ flattenList elseBody)
  | s@(.forIn _ _ body) => s :: flattenList body
  | s@(.withBlock _ body) => s :: flattenList body
  | s@(.tryExcept body handler) => s :: (flattenList body ++ flattenList handler)
  | s => [s]

/-- All statements of a statement list, nested ones included. -/
def flattenList : List Stmt → List Stmt
  | [] => []
  | s :: rest => s.flatten ++ flattenList rest

end

/-- Calls performed directly by one statement (not inside nested bodies). -/
def Stmt.topCalls : Stmt → List Call
  | .assign _ _ _ calls => calls
  | .exprStmt _ calls => calls
  | .withBlock ctx _ => [ctx]
  | .asyncSpawn call => [call]
  | _ => []

/-- All calls of a statement list, nested statements included. -/
def callsOf (body : List Stmt) : List Call :=
  (flattenList body).foldr (fun s acc => s.topCalls ++ acc) []

/-- All assertions of a statement list, nested statements included. -/
def assertsOf (body : List Stmt) : List (String × AssertKind × List String) :=
  (flattenList body).foldr
    (fun s acc =>
      match s with
      | .assertStmt method kind _ expected => (method, kind, expected) :: acc
      | _ => acc)
    []

/-- All class definitions (name, bases) of a statement list. -/
def classesOf (body : List Stmt) : List (String × List String) :=
  (flattenList body).foldr
    (fun s acc =>
      match s with
      | .classDef name _ bases _ => (name, bases) :: acc
      | _ => acc)
    []

/-- All imported module names of a statement list. -/
def importsOf (body : List Stmt) : List String :=
  (flattenList body).foldr
    (fun s acc =>
      match s with
      | .imprt module _ => module :: acc
      | _ => acc)
    []

/-- Whether a statement is a try/except handler. -/
def Stmt.isTry : Stmt → Bool
  | .tryExcept _ _ => true
  | _ => false

/-- Whether a statement is an async/thread-spawning construct. -/
def Stmt.isAsync : Stmt → Bool
  | .asyncSpawn _ => true
  | _ => false

/-- Whether a statement is a conditional branch. -/
def Stmt.isBranch : Stmt → Bool
  | .ifElse _ _ _ => true
  | _ => false

/-- Whether a statement is a loop. -/
def Stmt.isLoop : Stmt → Bool
  | .forIn _ _ _ => true
  | _ => false

/-! ## The OneFormer notebook cells

Code cells of the OneFormer part of `Inference_with_OneFormer.ipynb`, in
order. -/

/-- Image-loading cell: downloads the COCO cats image over HTTP and displays
it. -/
def oneformerImageLoad : CodeUnit :=
  ⟨"oneformer_image_load",
   [.imprt "PIL" ["Image"],
    .imprt "requests" ["requests"],
    .assign ["url"] [] ["http://images.cocodataset.org/val2017/000000039769.jpg"] [],
    .assign ["image"] ["Image", "requests", "url"] []
      [⟨"requests.get", [], .httpDownload⟩, ⟨"Image.open", [], .pure⟩],
    .exprStmt ["image"] [⟨"notebook.display", [], .harness⟩]]⟩

/-- Processor-loading cell. -/
def oneformerLoadProcessor : CodeUnit :=
  ⟨"oneformer_load_processor",
   [.imprt "mindnlp.transformers" ["AutoProcessor"],
    .assign ["processor"] ["AutoProcessor"] []
      [⟨"AutoProcessor.from_pretrained", ["shi-labs/oneformer_coco_swin_large"], .modelApi⟩]]⟩

/-- Panoptic input-preparation cell with its shape-printing loop. -/
def oneformerPreparePanoptic : CodeUnit :=
  ⟨"oneformer_prepare_panoptic",
   [.assign ["panoptic_inputs"] ["processor", "image"] []
      [⟨"processor", ["panoptic", "ms"], .modelApi⟩],
    .forIn ["k", "v"] ["panoptic_inputs"]
      [.exprStmt ["k", "v"] [⟨"print", [], .harness⟩]]]⟩

/-- Task-input decoding cell. -/
def oneformerDecodeTaskInputs : CodeUnit :=
  ⟨"oneformer_decode_task_inputs",
   [.exprStmt ["processor", "panoptic_inputs"]
      [⟨"processor.tokenizer.batch_decode", [], .modelApi⟩,
       ⟨"notebook.display", [], .harness⟩]]⟩

/-- Model-loading cell. -/
def oneformerLoadModel : CodeUnit :=
  ⟨"oneformer_load_model",
   [.imprt "mindnlp.transformers" ["AutoModelForUniversalSegmentation"],
    .assign ["model"] ["AutoModelForUniversalSegmentation"] []
      [⟨"AutoModelForUniversalSegmentation.from_pretrained",
        ["shi-labs/oneformer_coco_swin_large"], .modelApi⟩]]⟩

/-- Panoptic forward-pass cell. -/
def oneformerForwardPanoptic : CodeUnit :=
  ⟨"oneformer_forward_panoptic",
   [.imprt "mindnlp.core" ["ops", "no_grad"],
    .withBlock ⟨"no_grad", [], .pure⟩
      [.assign ["outputs"] ["model", "panoptic_inputs"] []
        [⟨"model.forward", [], .modelApi⟩]]]⟩

/-- Panoptic post-processing cell. -/
def oneformerPostprocessPanoptic : CodeUnit :=
  ⟨"oneformer_postprocess_panoptic",
   [.assign ["panoptic_segmentation"] ["processor", "outputs", "image"] []
      [⟨"processor.post_process_panoptic_segmentation", [], .modelApi⟩],
    .exprStmt ["panoptic_segmentation"] [⟨"print", [], .harness⟩]]⟩

/-- Body of the legend loop shared by the panoptic and instance drawing
functions. -/
def drawLegendLoopBody : List Stmt :=
  [.assign ["segment_id"] ["segment"] [] [],
   .assign ["segment_label_id"] ["segment"] [] [],
   .assign ["segment_label"] ["model", "segment_label_id"] [] [],
   .assign ["label"] ["segment_label", "instances_counter", "segment_label_id"] [] [],
   .assign ["instances_counter"] ["instances_counter", "segment_label_id"] [] [],
   .assign ["color"] ["viridis", "segment_id"] [] [],
   .exprStmt ["handles", "color", "label"]
     [⟨"mpatches.Patch", [], .pure⟩, ⟨"handles.append", [], .pure⟩]]

/-- Cell defining and calling `draw_panoptic_segmentation`. -/
def oneformerDrawPanoptic : CodeUnit :=
  ⟨"oneformer_draw_panoptic",
   [.imprt "collections" ["defaultdict"],
    .imprt "matplotlib.pyplot" ["plt"],
    .imprt "matplotlib" ["cm"],
    .imprt "matplotlib.patches" ["mpatches"],
    .imprt "numpy" ["np"],
    .imprt "mindspore" ["Tensor"],
    .funcDef "draw_panoptic_segmentation" [] ["segmentation", "segments_info"]
      [.ifElse ["segmentation", "Tensor"]
         [.assign ["segmentation_np"] ["segmentation"] []
            [⟨"segmentation.asnumpy", [], .pure⟩]]
         [.assign ["segmentation_np"] ["segmentation", "np"] []
            [⟨"np.array", [], .pure⟩]],
       .ifElse ["segmentation_np", "np"]
         [.assign ["segmentation_np"] ["segmentation_np", "np"] []
            [⟨"segmentation_np.astype", [], .pure⟩]]
         [],
       .assign ["max_segment"] ["segmentation_np", "np"] [] [⟨"np.max", [], .pure⟩],
       .assign ["viridis"] ["max_segment", "cm"] ["viridis"]
         [⟨"cm.get_cmap", ["viridis"], .pure⟩],
       .assign ["fig", "ax"] ["plt"] [] [⟨"plt.subplots", [], .pure⟩],
       .exprStmt ["ax", "segmentation_np"] [⟨"ax.imshow", [], .pure⟩],
       .assign ["instances_counter"] [] [] [⟨"defaultdict", [], .pure⟩],
       .assign ["handles"] [] [] [],
       .forIn ["segment"] ["segments_info"] drawLegendLoopBody,
       .exprStmt ["ax", "handles"] [⟨"ax.legend", [], .pure⟩],
       .exprStmt ["plt"] [⟨"plt.savefig", ["cats_panoptic.png"], .fileWrite⟩]],
    .exprStmt ["panoptic_segmentation"]
      [⟨"draw_panoptic_segmentation", [], .pure⟩]]⟩

/-- Semantic input-preparation cell. -/
def oneformerPrepareSemantic : CodeUnit :=
  ⟨"oneformer_prepare_semantic",
   [.assign ["semantic_inputs"] ["processor", "image"] []
      [⟨"processor", ["semantic", "ms"], .modelApi⟩],
    .forIn ["k", "v"] ["semantic_inputs"]
      [.exprStmt ["k", "v"] [⟨"print", [], .harness⟩]]]⟩

/-- Semantic forward-pass cell. -/
def oneformerForwardSemantic : CodeUnit :=
  ⟨"oneformer_forward_semantic",
   [.withBlock ⟨"no_grad", [], .pure⟩
      [.assign ["outputs"] ["model", "semantic_inputs"] []
        [⟨"model.forward", [], .modelApi⟩]]]⟩

/-- Semantic post-processing cell. -/
def oneformerPostprocessSemantic : CodeUnit :=
  ⟨"oneformer_postprocess_semantic",
   [.assign ["semantic_segmentation"] ["processor", "outputs"] []
      [⟨"processor.post_process_semantic_segmentation", [], .modelApi⟩],
    .exprStmt ["semantic_segmentation"] [⟨"notebook.display", [], .harness⟩]]⟩

/-- Cell defining and calling `draw_semantic_segmentation`. -/
def oneformerDrawSemantic : CodeUnit :=
  ⟨"oneformer_draw_semantic",
   [.imprt "matplotlib.pyplot" ["plt"],
    .imprt "matplotlib.patches" ["mpatches"],
    .imprt "matplotlib.colors" ["ListedColormap", "LinearSegmentedColormap"],
    .imprt "matplotlib" ["cm"],
    .funcDef "draw_semantic_segmentation" [] ["segmentation"]
      [.ifElse ["segmentation", "np"]
         [.assign ["segmentation"] ["segmentation", "np"] []
            [⟨"np.array", [], .pure⟩]]
         [],
       .assign ["segmentation"] ["segmentation", "np"] []
         [⟨"segmentation.astype", [], .pure⟩],
       .assign ["max_label"] ["segmentation", "np"] [] [⟨"np.max", [], .pure⟩],
       .assign ["viridis"] ["max_label", "cm"] ["viridis"]
         [⟨"cm.get_cmap", ["viridis"], .pure⟩],
       .assign ["labels_ids"] ["segmentation", "np"] [] [⟨"np.unique", [], .pure⟩],
       .assign ["fig", "ax"] ["plt"] [] [⟨"plt.subplots", [], .pure⟩],
       .exprStmt ["ax", "segmentation", "viridis"] [⟨"ax.imshow", [], .pure⟩],
       .assign ["handles"] [] [] [],
       .forIn ["label_id"] ["labels_ids"]
         [.assign ["label"] ["model", "label_id"] [] [],
          .assign ["color"] ["viridis", "label_id", "max_label"] [] [],
          .exprStmt ["handles", "color", "label"]
            [⟨"mpatches.Patch", [], .pure⟩, ⟨"handles.append", [], .pure⟩]],
       .exprStmt ["ax", "handles"] [⟨"ax.legend", [], .pure⟩]],
    .exprStmt ["semantic_segmentation"]
      [⟨"draw_semantic_segmentation", [], .pure⟩]]⟩

/-- Instance input-preparation cell. -/
def oneformerPrepareInstance : CodeUnit :=
  ⟨"oneformer_prepare_instance",
   [.assign ["instance_inputs"] ["processor", "image"] []
      [⟨"processor", ["instance", "ms"], .modelApi⟩],
    .forIn ["k", "v"] ["instance_inputs"]
      [.exprStmt ["k", "v"] [⟨"print", [], .harness⟩]]]⟩

/-- Instance forward-pass cell. -/
def oneformerForwardInstance : CodeUnit :=
  ⟨"oneformer_forward_instance",
   [.withBlock ⟨"no_grad", [], .pure⟩
      [.assign ["outputs"] ["model", "instance_inputs"] []
        [⟨"model.forward", [], .modelApi⟩]]]⟩

/-- Instance post-processing cell. -/
def oneformerPostprocessInstance : CodeUnit :=
  ⟨"oneformer_postprocess_instance",
   [.assign ["instance_segmentation"] ["processor", "outputs"] []
      [⟨"processor.post_process_instance_segmentation", [], .modelApi⟩],
    .exprStmt ["instance_segmentation"] [⟨"notebook.display", [], .harness⟩]]⟩

/-- Cell defining and calling `draw_instance_segmentation`. -/
def oneformerDrawInstance : CodeUnit :=
  ⟨"oneformer_draw_instance",
   [.imprt "collections" ["defaultdict"],
    .imprt "matplotlib.pyplot" ["plt"],
    .imprt "matplotlib" ["cm"],
    .imprt "matplotlib.patches" ["mpatches"],
    .imprt "numpy" ["np"],
    .funcDef "draw_instance_segmentation" [] ["segmentation", "segments_info"]
      [.ifElse ["segmentation"]
         [.assign ["segmentation"] ["segmentation"] []
            [⟨"segmentation.asnumpy", [], .pure⟩]]
         [],
       .assign ["segmentation"] ["segmentation", "np"] [] [⟨"np.array", [], .pure⟩],
       .assign ["max_segment_id"] ["segmentation", "np"] [] [⟨"np.max", [], .pure⟩],
       .assign ["viridis"] ["max_segment_id", "cm"] ["viridis"]
         [⟨"cm.get_cmap", ["viridis"], .pure⟩],
       .assign ["fig", "ax"] ["plt"] [] [⟨"plt.subplots", [], .pure⟩],
       .exprStmt ["ax", "segmentation"] [⟨"ax.imshow", [], .pure⟩],
       .assign ["instances_counter"] [] [] [⟨"defaultdict", [], .pure⟩],
       .assign ["handles"] [] [] [],
       .forIn ["segment"] ["segments_info"] drawLegendLoopBody,
       .exprStmt ["ax", "handles"] [⟨"ax.legend", [], .pure⟩],
       .exprStmt ["plt"] [⟨"plt.savefig", ["cats_panoptic.png"], .fileWrite⟩]],
    .exprStmt ["instance_segmentation"]
      [⟨"draw_instance_segmentation", [], .pure⟩]]⟩

/-- All code cells of the OneFormer notebook, in order. -/
def oneformerCells : List CodeUnit :=
  [oneformerImageLoad, oneformerLoadProcessor, oneformerPreparePanoptic,
   oneformerDecodeTaskInputs, oneformerLoadModel, oneformerForwardPanoptic,
   oneformerPostprocessPanoptic, oneformerDrawPanoptic,
   oneformerPrepareSemantic, oneformerForwardSemantic,
   oneformerPostprocessSemantic, oneformerDrawSemantic,
   oneformerPrepareInstance, oneformerForwardInstance,
   oneformerPostprocessInstance, oneformerDrawInstance]

/-! ## The TAPAS notebook cells -/

/-- Import cell of the TAPAS notebook. -/
def tapasImports : CodeUnit :=
  ⟨"tapas_imports",
   [.imprt "mindnlp.transformers" ["TapasTokenizer", "TapasForQuestionAnswering"],
    .imprt "pandas" ["pd"]]⟩

/-- Model- and tokenizer-loading cell of the TAPAS notebook. -/
def tapasLoadModel : CodeUnit :=
  ⟨"tapas_load_model",
   [.assign ["model_name"] [] ["google/tapas-base-finetuned-wtq"] [],
    .assign ["model"] ["TapasForQuestionAnswering", "model_name"] []
      [⟨"TapasForQuestionAnswering.from_pretrained", [], .modelApi⟩],
    .assign ["tokenizer"] ["TapasTokenizer", "model_name"] []
      [⟨"TapasTokenizer.from_pretrained", [], .modelApi⟩]]⟩

/-- Table- and questions-building cell of the TAPAS notebook; binds `data`,
`table` and `questions` (and no other name). -/
def tapasBuildTable : CodeUnit :=
  ⟨"tapas_build_table",
   [.assign ["data"] [] ["Title", "Author", "Year", "Category"] [],
    .assign ["table"] ["pd", "data"] [] [⟨"pd.DataFrame.from_dict", [], .pure⟩],
    .assign ["questions"] []
      ["Who is the author of The Lord of the Rings?",
       "which book published on 1987?",
       "How many books belonging to Adventure in sum?"] [],
    .exprStmt ["table"] [⟨"notebook.display", [], .harness⟩]]⟩

/-- Tokenization and forward-pass cell of the TAPAS notebook. Its first
statement reads the name `question` (singular) in
`tokenizer(table=table, queries=question, ...)`. -/
def tapasTokenizeForward : CodeUnit :=
  ⟨"tapas_tokenize_forward",
   [.assign ["inputs"] ["tokenizer", "table", "question"] ["ms", "max_length"]
      [⟨"tokenizer", ["ms", "max_length"], .modelApi⟩],
    .assign ["input_ids"] ["inputs"] [] [],
    .assign ["attention_mask"] ["inputs"] [] [],
    .assign ["token_type_ids"] ["inputs"] [] [],
    .assign ["outputs"] ["model", "input_ids", "attention_mask", "token_type_ids"] []
      [⟨"model.forward", [], .modelApi⟩]]⟩

/-- Answer-parsing and printing cell of the TAPAS notebook. -/
def tapasParseAnswers : CodeUnit :=
  ⟨"tapas_parse_answers",
   [.assign ["predicted_answer_coordinates", "predicted_aggregation_indices"]
      ["tokenizer", "inputs", "outputs"] []
      [⟨"tokenizer.convert_logits_to_predictions", [], .modelApi⟩],
    .assign ["answers"] [] [] [],
    .assign ["numbers"] [] [] [],
    .forIn ["coordinates"] ["predicted_answer_coordinates"]
      [.ifElse ["coordinates"]
         [.exprStmt ["answers", "table", "coordinates"]
            [⟨"table.iat", [], .pure⟩, ⟨"answers.append", [], .pure⟩]]
         [.assign ["cell_values"] [] [] [],
          .forIn ["coordinate"] ["coordinates"]
            [.exprStmt ["cell_values", "table", "coordinate"]
               [⟨"table.iat", [], .pure⟩, ⟨"cell_values.append", [], .pure⟩]],
          .exprStmt ["answers", "cell_values"] [⟨"answers.append", [], .pure⟩]]],
    .forIn ["num"] ["predicted_aggregation_indices"]
      [.exprStmt ["numbers", "num"] [⟨"numbers.append", [], .pure⟩]],
    .forIn ["i"] ["questions"]
      [.exprStmt ["questions", "i"] [⟨"print", [], .harness⟩],
       .ifElse ["numbers", "i"]
         [.exprStmt ["numbers", "answers", "i"] [⟨"print", [], .harness⟩]]
         [.exprStmt ["answers", "i"] [⟨"print", [], .harness⟩]]]]⟩

/-- All code cells of the TAPAS notebook, in order. -/
def tapasCells : List CodeUnit :=
  [tapasImports, tapasLoadModel, tapasBuildTable, tapasTokenizeForward,
   tapasParseAnswers]

/-! ## The Jukebox test module

Embedding of the compiled test artifact. The binary was stored through a
text transcoding that destroyed all non-ASCII bytes, so the bytecode is
unrecoverable; the class layout, the method names, the attribute and local
symbol tables and the string literals survive and the statement lists below
are reconstructed from those surviving tables (assertion methods and
EXPECTED constant names are taken verbatim from the symbol tables of each
method). -/

/-- Class-attribute assignments shared by both tester classes: model
checkpoint id, sampling metadata and the hard-coded EXPECTED constants. -/
def jb1bClassAttrs : List Stmt :=
  [.assign ["all_model_classes"] ["is_mindspore_available", "JukeboxModel"] [] [],
   .assign ["model_id"] [] ["openai/jukebox-1b-lyrics"] [],
   .assign ["metas"] [] ["Zac Brown Band", "Country"] [],
   .assign ["EXPECTED_OUTPUT_2"] [] [] [],
   .assign ["EXPECTED_OUTPUT_2_PT_2"] [] [] [],
   .assign ["EXPECTED_OUTPUT_1"] [] [] [],
   .assign ["EXPECTED_OUTPUT_1_PT_2"] [] [] [],
   .assign ["EXPECTED_OUTPUT_0"] [] [] [],
   .assign ["EXPECTED_OUTPUT_0_PT_2"] [] [] [],
   .assign ["EXPECTED_Y_COND"] [] [] [],
   .assign ["EXPECTED_PRIMED_0"] [] [] [],
   .assign ["EXPECTED_PRIMED_1"] [] [] [],
   .assign ["EXPECTED_PRIMED_2"] [] [] [],
   .assign ["EXPECTED_AUDIO_COND"] [] [] [],
   .assign ["EXPECTED_META_COND"] [] [] [],
   .assign ["EXPECTED_LYRIC_COND"] [] [] [],
   .assign ["EXPECTED_VQVAE_ENCODE"] [] [] [],
   .assign ["EXPECTED_VQVAE_DECODE"] [] [] []]

/-- Body of `prepare_inputs`: tokenizer loading and tokenization of the
class metadata. -/
def jbPrepareInputsBody : List Stmt :=
  [.assign ["tokenizer"] ["JukeboxTokenizer", "self"] []
     [⟨"JukeboxTokenizer.from_pretrained", [], .modelApi⟩],
   .assign ["tokens"] ["tokenizer", "self"] [] [⟨"tokenizer", [], .modelApi⟩],
   .ret ["tokens"]]

/-- Body of `Jukebox1bModelTester.test_sampling`: three `_sample` calls whose
token outputs are compared by `assertIn` against pairs of EXPECTED
constants. -/
def jb1bSamplingBody : List Stmt :=
  [.assign ["model"] ["JukeboxModel", "self"] []
     [⟨"JukeboxModel.from_pretrained", [], .modelApi⟩,
      ⟨"model.set_train", [], .modelApi⟩],
   .assign ["labels"] ["self"] [] [⟨"self.prepare_inputs", [], .modelApi⟩],
   .exprStmt ["set_seed"] [⟨"set_seed", [], .pure⟩],
   .assign ["zs"] ["ops"] [] [⟨"ops.zeros", [], .pure⟩],
   .assign ["zs"] ["model", "zs", "labels"] [] [⟨"model._sample", [], .modelApi⟩],
   .assertStmt "assertIn" .inExpectedList ["zs"]
     ["EXPECTED_OUTPUT_2", "EXPECTED_OUTPUT_2_PT_2"],
   .assign ["zs"] ["model", "zs", "labels"] [] [⟨"model._sample", [], .modelApi⟩],
   .assertStmt "assertIn" .inExpectedList ["zs"]
     ["EXPECTED_OUTPUT_1", "EXPECTED_OUTPUT_1_PT_2"],
   .assign ["zs"] ["model", "zs", "labels"] [] [⟨"model._sample", [], .modelApi⟩],
   .assertStmt "assertIn" .inExpectedList ["zs"]
     ["EXPECTED_OUTPUT_0", "EXPECTED_OUTPUT_0_PT_2"]]

/-- Body of `Jukebox1bModelTester.test_conditioning`: conditioning tensors of
the top prior, checked by `assertIsNone`, `assertListEqual` against
EXPECTED_Y_COND, and `assertTrue(ops.allclose(..., atol, rtol))` against the
EXPECTED conditioning constants. -/
def jb1bConditioningBody : List Stmt :=
  [.assign ["model"] ["JukeboxModel", "self"] []
     [⟨"JukeboxModel.from_pretrained", [], .modelApi⟩],
   .assign ["labels"] ["self"] [] [⟨"self.prepare_inputs", [], .modelApi⟩],
   .exprStmt ["set_seed"] [⟨"set_seed", [], .pure⟩],
   .assign ["top_prior"] ["model"] [] [],
   .assign ["zs"] ["ops"] [] [⟨"ops.zeros", [], .pure⟩],
   .assign ["music_token_conds"] ["top_prior", "zs"] []
     [⟨"top_prior.get_music_tokens_conds", [], .modelApi⟩],
   .assertStmt "assertIsNone" .isNone ["music_token_conds"] [],
   .assign ["metadata"] ["top_prior", "labels"] []
     [⟨"top_prior.get_metadata", [], .modelApi⟩],
   .assertStmt "assertListEqual" .eqExpected ["metadata"] ["EXPECTED_Y_COND"],
   .assign ["audio_conditioning", "metadata_conditioning", "lyric_tokens"]
     ["top_prior", "music_token_conds", "metadata"] []
     [⟨"top_prior.get_cond", [], .modelApi⟩],
   .assertStmt "assertTrue" .allcloseExpected ["audio_conditioning"]
     ["EXPECTED_AUDIO_COND"],
   .assertStmt "assertTrue" .allcloseExpected ["metadata_conditioning"]
     ["EXPECTED_META_COND"],
   .assertStmt "assertTrue" .allcloseExpected ["lyric_tokens"]
     ["EXPECTED_LYRIC_COND"]]

/-- Body of `Jukebox1bModelTester.test_primed_sampling`: VQ-VAE encoding of a
random waveform primes `_sample` at each level, checked against the
EXPECTED_PRIMED constants. -/
def jb1bPrimedBody : List Stmt :=
  [.assign ["model"] ["JukeboxModel", "self"] []
     [⟨"JukeboxModel.from_pretrained", [], .modelApi⟩,
      ⟨"model.set_train", [], .modelApi⟩],
   .exprStmt ["set_seed"] [⟨"set_seed", [], .pure⟩],
   .assign ["waveform"] ["ops"] [] [⟨"ops.rand", [], .pure⟩],
   .assign ["tokens"] ["self"] [] [⟨"self.prepare_inputs", [], .modelApi⟩],
   .assign ["zs"] ["model", "waveform"] []
     [⟨"model.vqvae.encode", [], .modelApi⟩],
   .assign ["upper_2"] ["model", "zs", "tokens"] []
     [⟨"model._sample", [], .modelApi⟩],
   .assertStmt "assertIn" .inExpectedList ["upper_2"] ["EXPECTED_PRIMED_0"],
   .assign ["zs"] ["model", "waveform", "upper_2"] []
     [⟨"model.vqvae.encode", [], .modelApi⟩, ⟨"ops.cat", [], .pure⟩],
   .assign ["upper_1"] ["model", "zs", "tokens"] []
     [⟨"model._sample", [], .modelApi⟩],
   .assertStmt "assertIn" .inExpectedList ["upper_1"] ["EXPECTED_PRIMED_1"],
   .assign ["zs"] ["model", "waveform", "upper_1"] []
     [⟨"model.vqvae.encode", [], .modelApi⟩, ⟨"ops.cat", [], .pure⟩],
   .assign ["zs"] ["model", "zs", "tokens"] []
     [⟨"model._sample", [], .modelApi⟩],
   .assertStmt "assertIn" .inExpectedList ["zs"] ["EXPECTED_PRIMED_2"]]

/-- Body of `Jukebox1bModelTester.test_vqvae`: VQ-VAE encode of a random
waveform followed by decode, each checked against an EXPECTED constant. -/
def jb1bVqvaeBody : List Stmt :=
  [.assign ["model"] ["JukeboxModel", "self"] []
     [⟨"JukeboxModel.from_pretrained", [], .modelApi⟩],
   .exprStmt ["set_seed"] [⟨"set_seed", [], .pure⟩],
   .assign ["x"] ["ops"] [] [⟨"ops.rand", [], .pure⟩],
   .assign ["zs"] ["model", "x"] [] [⟨"model.vqvae.encode", [], .modelApi⟩],
   .assertStmt "assertTrue" .allcloseExpected ["zs"] ["EXPECTED_VQVAE_ENCODE"],
   .assign ["x"] ["model", "zs"] [] [⟨"model.vqvae.decode", [], .modelApi⟩],
   .assertStmt "assertTrue" .allcloseExpected ["x"] ["EXPECTED_VQVAE_DECODE"]]

/-- Class-attribute assignments of the 5b tester. -/
def jb5bClassAttrs : List Stmt :=
  [.assign ["all_model_classes"] ["is_mindspore_available", "JukeboxModel"] [] [],
   .assign ["model_id"] [] ["openai/jukebox-5b-lyrics"] [],
   .assign ["metas"] [] ["Zac Brown Band", "Country"] [],
   .assign ["EXPECTED_OUTPUT_2"] [] [] [],
   .assign ["EXPECTED_OUTPUT_1"] [] [] [],
   .assign ["EXPECTED_OUTPUT_0"] [] [] [],
   .assign ["EXPECTED_GPU_OUTPUTS_2"] [] [] [],
   .assign ["EXPECTED_GPU_OUTPUTS_1"] [] [] [],
   .assign ["EXPECTED_GPU_OUTPUTS_0"] [] [] [],
   .assign ["EXPECTED_GPU_OUTPUTS_2_PT_2"] [] [] []]

/-- Body of `Jukebox5bModelTester.test_sampling`. -/
def jb5bSamplingBody : List Stmt :=
  [.assign ["model"] ["JukeboxModel", "self"] []
     [⟨"JukeboxModel.from_pretrained", [], .modelApi⟩,
      ⟨"model.set_train", [], .modelApi⟩],
   .assign ["labels"] ["self"] [] [⟨"self.prepare_inputs", [], .modelApi⟩],
   .exprStmt ["set_seed"] [⟨"set_seed", [], .pure⟩],
   .assign ["zs"] ["ops"] [] [⟨"ops.zeros", [], .pure⟩],
   .assign ["zs"] ["model", "zs", "labels"] [] [⟨"model._sample", [], .modelApi⟩],
   .assertStmt "assertIn" .inExpectedList ["zs"] ["EXPECTED_OUTPUT_2"],
   .assign ["zs"] ["model", "zs", "labels"] [] [⟨"model._sample", [], .modelApi⟩],
   .assertStmt "assertIn" .inExpectedList ["zs"] ["EXPECTED_OUTPUT_1"],
   .assign ["zs"] ["model", "zs", "labels"] [] [⟨"model._sample", [], .modelApi⟩],
   .assertStmt "assertIn" .inExpectedList ["zs"] ["EXPECTED_OUTPUT_0"]]

/-- Body of `Jukebox5bModelTester.test_slow_sampling` (skipped on CI for GPU
memory). -/
def jb5bSlowSamplingBody : List Stmt :=
  [.assign ["model"] ["JukeboxModel", "self"] []
     [⟨"JukeboxModel.from_pretrained", [], .modelApi⟩,
      ⟨"model.set_train", [], .modelApi⟩],
   .assign ["labels"] ["self"] [] [⟨"self.prepare_inputs", [], .modelApi⟩],
   .exprStmt ["set_seed"] [⟨"set_seed", [], .pure⟩],
   .assign ["zs"] ["ops"] [] [⟨"ops.zeros", [], .pure⟩],
   .assign ["zs"] ["model", "zs", "labels"] [] [⟨"model._sample", [], .modelApi⟩],
   .assertStmt "assertIn" .inExpectedList ["zs"] ["EXPECTED_GPU_OUTPUTS_2"],
   .assign ["zs"] ["model", "zs", "labels"] [] [⟨"model._sample", [], .modelApi⟩],
   .assertStmt "assertIn" .inExpectedList ["zs"] ["EXPECTED_GPU_OUTPUTS_1"],
   .assign ["zs"] ["model", "zs", "labels"] [] [⟨"model._sample", [], .modelApi⟩],
   .assertStmt "assertIn" .inExpectedList ["zs"] ["EXPECTED_GPU_OUTPUTS_0"]]

/-- Body of `Jukebox5bModelTester.test_fp16_slow_sampling`: half-precision
sampling through a single prior checkpoint. -/
def jb5bFp16Body : List Stmt :=
  [.assign ["prior"] ["JukeboxPrior", "self"] []
     [⟨"JukeboxPrior.from_pretrained", ["ArthurZ/jukebox_prior_0"], .modelApi⟩,
      ⟨"prior.half", [], .pure⟩, ⟨"prior.set_train", [], .modelApi⟩],
   .assign ["tokenizer"] ["JukeboxTokenizer", "self"] []
     [⟨"JukeboxTokenizer.from_pretrained", [], .modelApi⟩],
   .assign ["labels"] ["tokenizer", "self"] [] [⟨"tokenizer", [], .modelApi⟩],
   .exprStmt ["set_seed"] [⟨"set_seed", [], .pure⟩],
   .assign ["outputs"] ["prior", "labels"] [] [⟨"prior.sample", [], .modelApi⟩],
   .assertStmt "assertIn" .inExpectedList ["outputs"]
     ["EXPECTED_GPU_OUTPUTS_2_PT_2"]]

/-- Module-level statements of the compiled Jukebox test artifact. -/
def jukeboxModule : List Stmt :=
  [.imprt "unittest" ["unittest"],
   .imprt "mindnlp.utils.testing_utils"
     ["is_mindspore_available", "require_mindspore", "slow", "skip"],
   .imprt "mindnlp.engine" ["set_seed"],
   .imprt "mindnlp.core" ["ops"],
   .imprt "mindnlp.transformers" ["JukeboxModel", "JukeboxPrior", "JukeboxTokenizer"],
   .classDef "Jukebox1bModelTester" ["require_mindspore"] ["unittest.TestCase"]
     (jb1bClassAttrs ++
      [.funcDef "prepare_inputs" [] ["self"] jbPrepareInputsBody,
       .funcDef "test_sampling" ["slow"] ["self"] jb1bSamplingBody,
       .funcDef "test_conditioning" ["slow"] ["self"] jb1bConditioningBody,
       .funcDef "test_primed_sampling" ["slow"] ["self"] jb1bPrimedBody,
       .funcDef "test_vqvae" ["slow"] ["self"] jb1bVqvaeBody]),
   .classDef "Jukebox5bModelTester" ["require_mindspore"] ["unittest.TestCase"]
     (jb5bClassAttrs ++
      [.funcDef "prepare_inputs" [] ["self"] jbPrepareInputsBody,
       .funcDef "test_sampling" ["slow"] ["self"] jb5bSamplingBody,
       .funcDef "test_slow_sampling" ["skip", "slow"] ["self"] jb5bSlowSamplingBody,
       .funcDef "test_fp16_slow_sampling" ["slow"] ["self"] jb5bFp16Body])]

/-- The test methods of the compiled artifact as named units. -/
def jukeboxTestMethods : List CodeUnit :=
  [⟨"Jukebox1bModelTester.prepare_inputs", jbPrepareInputsBody⟩,
   ⟨"Jukebox1bModelTester.test_sampling", jb1bSamplingBody⟩,
   ⟨"Jukebox1bModelTester.test_conditioning", jb1bConditioningBody⟩,
   ⟨"Jukebox1bModelTester.test_primed_sampling", jb1bPrimedBody⟩,
   ⟨"Jukebox1bModelTester.test_vqvae", jb1bVqvaeBody⟩,
   ⟨"Jukebox5bModelTester.prepare_inputs", jbPrepareInputsBody⟩,
   ⟨"Jukebox5bModelTester.test_sampling", jb5bSamplingBody⟩,
   ⟨"Jukebox5bModelTester.test_slow_sampling", jb5bSlowSamplingBody⟩,
   ⟨"Jukebox5bModelTester.test_fp16_slow_sampling", jb5bFp16Body⟩]

/-- The `test_` methods only (the checks the suite performs). -/
def jukeboxTestUnits : List CodeUnit :=
  jukeboxTestMethods.filter (fun u => u.name ≠ "Jukebox1bModelTester.prepare_inputs" ∧
    u.name ≠ "Jukebox5bModelTester.prepare_inputs")

/-- All notebook cells. -/
def allCellUnits : List CodeUnit := oneformerCells ++ tapasCells

/-- Code units quantified over by the per-unit claims: every notebook cell
and every test method. -/
def allUnits : List CodeUnit := allCellUnits ++ jukeboxTestMethods

/-- Every authored statement of the repository: the cells of both notebooks
and the module-level statements of the test artifact (whose class bodies
nest the methods). -/
def allAuthoredStmts : List Stmt :=
  (allCellUnits.foldr (fun u acc => u.body ++ acc) []) ++ jukeboxModule

/-- Every library call of the authored code, nested statements included. -/
def allCalls : List Call := callsOf allAuthoredStmts

/-- Every authored statement, flattened. -/
def allFlat : List Stmt := flattenList allAuthoredStmts

/-! ## Claim predicates -/

mutual

/-- Statement shapes admitted by the claim that every authored body is only
assertions against constants plus a straight-line sequential call chain:
imports, assignments, expression statements, returns, with-blocks and
function definitions over such statements, and assertions that name at least
one hard-coded expected constant. Conditionals and loops are not
straight-line. -/
def chainStmtStated : Stmt → Bool
  | .imprt _ _ => true
  | .assign _ _ _ _ => true
  | .exprStmt _ _ => true
  | .ret _ => true
  | .funcDef _ _ _ body => chainListStated body
  | .withBlock _ body => chainListStated body
  | .assertStmt _ _ _ expected => !expected.isEmpty
  | _ => false

/-- List version of `chainStmtStated`. -/
def chainListStated : List Stmt → Bool
  | [] => true
  | s :: rest => chainStmtStated s && chainListStated rest

end

/-- The claim C1 as stated: every code cell and test method is only
assertions against constants and straight-line sequential calls. -/
def claimC1Stated : Bool :=
  allUnits.all fun u => chainListStated u.body

mutual

/-- Whether a statement is free of conditional branching (loops allowed),
recursively. -/
def branchFreeStmt : Stmt → Bool
  | .ifElse _ _ _ => false
  | .tryExcept _ _ => false
  | .asyncSpawn _ => false
  | .funcDef _ _ _ body => branchFreeList body
  | .classDef _ _ _ body => branchFreeList body
  | .forIn _ _ body => branchFreeList body
  | .withBlock _ body => branchFreeList body
  | _ => true

/-- List version of `branchFreeStmt`. -/
def branchFreeList : List Stmt → Bool
  | [] => true
  | s :: rest => branchFreeStmt s && branchFreeList rest

end

/-- The code units that do contain conditional branching: the three drawing
cells and the TAPAS answer-parsing cell. -/
def branchingUnits : List String :=
  ["oneformer_draw_panoptic", "oneformer_draw_semantic",
   "oneformer_draw_instance", "tapas_parse_answers"]

/-- The claim C2 as stated: every assertion of the compiled test suite
relates a model output to a single EXPECTED constant by equality. -/
def claimC2Stated : Bool :=
  jukeboxTestUnits.all fun u =>
    (assertsOf u.body).all fun a =>
      a.2.1 = AssertKind.eqExpected && a.2.2.length = 1

/-- Sampling-path entry points of the Jukebox model API. -/
def samplingCallees : List String := ["model._sample", "prior.sample"]

/-- Conditioning-path entry points. -/
def conditioningCallees : List String :=
  ["top_prior.get_music_tokens_conds", "top_prior.get_metadata",
   "top_prior.get_cond"]

/-- VQ-VAE encode/decode entry points (priming also encodes through them). -/
def vqvaeCallees : List String := ["model.vqvae.encode", "model.vqvae.decode"]

/-- Checkpoint/tokenizer loading and eval-mode entry points shared by all
tests. -/
def loadingCallees : List String :=
  ["JukeboxModel.from_pretrained", "JukeboxPrior.from_pretrained",
   "JukeboxTokenizer.from_pretrained", "tokenizer", "self.prepare_inputs",
   "model.set_train", "prior.set_train"]

/-- Every model-API call of the test module is on the sampling,
conditioning, priming/VQ-VAE or loading path. -/
def jukeboxPathsOnly : Bool :=
  (callsOf jukeboxModule).all fun c =>
    c.effect ≠ Effect.modelApi ||
      (samplingCallees ++ conditioningCallees ++ vqvaeCallees ++
        loadingCallees).contains c.callee

/-- The claim C4 as stated: every externally visible effect goes through the
pretrained-model API or the notebook/test harness. -/
def claimC4Stated : Bool :=
  allCalls.all fun c =>
    c.effect = Effect.pure || c.effect = Effect.modelApi ||
      c.effect = Effect.harness

/-- The image-download call of the OneFormer notebook. -/
def requestsGetCall : Call := ⟨"requests.get", [], .httpDownload⟩

/-- The figure-saving call of the drawing cells. -/
def savefigCall : Call := ⟨"plt.savefig", ["cats_panoptic.png"], .fileWrite⟩

/-! ## Name-resolution runner for the TAPAS notebook

A small sequential interpreter of the statement embedding that models Python
name resolution: statements execute in order, a statement first evaluates
the names it reads and raises NameError at the first unbound one, and only
then performs its calls and binds its targets. Function and class
definitions bind their name without executing function bodies. Compound
statements check their header reads and then their bodies eagerly; the
TAPAS run below fails before reaching any compound statement, so only the
straight-line semantics is exercised. -/

/-- Builtin names that are always resolvable. -/
def pythonBuiltins : List String :=
  ["print", "len", "range", "isinstance", "hasattr", "list", "dict"]

/-- Names a statement reads at its own level. -/
def Stmt.topReads : Stmt → List String
  | .assign _ reads _ _ => reads
  | .exprStmt reads _ => reads
  | .ret reads => reads
  | .ifElse reads _ _ => reads
  | .forIn _ reads _ => reads
  | .assertStmt _ _ reads _ => reads
  | _ => []

/-- Names a statement binds at its own level. -/
def Stmt.topBinds : Stmt → List String
  | .imprt _ binds => binds
  | .assign targets _ _ _ => targets
  | .funcDef name _ _ _ => [name]
  | .classDef name _ _ _ => [name]
  | .forIn vars _ _ => vars
  | _ => []

/-- State of the runner: bound names, calls performed so far, and the first
NameError if one occurred (cell index, statement index, unbound name). -/
structure RunState where
  env : List String
  trace : List Call
  failure : Option (Nat × Nat × String)
  deriving DecidableEq, Repr

/-- Whether `pre` is a prefix of `s`, computed on the underlying character
lists (kernel-reducible). -/
def strStarts (pre s : String) : Bool := List.isPrefixOf pre.data s.data

/-- First name of `reads` that is neither bound nor a builtin. -/
def findUnbound (env reads : List String) : Option String :=
  reads.find? fun r => !(env.contains r || pythonBuiltins.contains r)

mutual

/-- Run one statement: raise NameError on the first unbound read, otherwise
perform the calls, bind the targets, and descend into compound bodies. -/
def runStmt (ci si : Nat) (st : RunState) (s : Stmt) : RunState :=
  if st.failure.isSome then st
  else
    match findUnbound st.env s.topReads with
    | some r => ⟨st.env, st.trace, some (ci, si, r)⟩
    | none =>
      let st1 : RunState := ⟨st.env ++ s.topBinds, st.trace ++ s.topCalls, none⟩
      match s with
      | .ifElse _ thenBody elseBody =>
          runBody ci si (runBody ci si st1 thenBody) elseBody
      | .forIn _ _ body => runBody ci si st1 body
      | .withBlock _ body => runBody ci si st1 body
      | _ => st1

/-- Run the statements of a nested body (they keep the enclosing statement
index). -/
def runBody (ci si : Nat) (st : RunState) : List Stmt → RunState
  | [] => st
  | s :: rest => runBody ci si (runStmt ci si st s) rest

end

/-- Run the statements of one cell, numbering them from `si`. -/
def runCellStmts (ci : Nat) : Nat → RunState → List Stmt → RunState
  | _, st, [] => st
  | si, st, s :: rest => runCellStmts ci (si + 1) (runStmt ci si st s) rest

/-- Run a list of cells in order, numbering them from `ci`. -/
def runCellsFrom : Nat → RunState → List (List Stmt) → RunState
  | _, st, [] => st
  | ci, st, c :: rest => runCellsFrom (ci + 1) (runCellStmts ci 0 st c) rest

/-- Run a notebook (a list of code cells) from the empty environment. -/
def runNotebook (cells : List CodeUnit) : RunState :=
  runCellsFrom 0 ⟨[], [], none⟩ (cells.map CodeUnit.body)

end MindnlpRepo

namespace MindnlpRepo

theorem decDigit_digitChar (d : Nat) (h : d < 10) :
    decDigit (Nat.digitChar d) = d := by
  interval_cases d <;> rfl

theorem pmag_eq (n : Nat) :
    pmag n = if n < 10 then 10 else 10 * pmag (n / 10) := by
  rw [pmag]

theorem toDigitsCore_succ (b fuel n : Nat) (acc : List Char) :
    Nat.toDigitsCore b (fuel + 1) n acc =
      if n / b = 0 then Nat.digitChar (n % b) :: acc
      else Nat.toDigitsCore b fuel (n / b) (Nat.digitChar (n % b) :: acc) := rfl

theorem decList_cons (a : Nat) (c : Char) (cs : List Char) :
    decList a (c :: cs) = decList (10 * a + decDigit c) cs := rfl

theorem decList_toDigitsCore (f : Nat) : ∀ (n a : Nat) (acc : List Char),
    n < 10 ^ (f + 1) →
    decList a (Nat.toDigitsCore 10 (f + 1) n acc) = decList (a * pmag n + n) acc := by
  induction f with
  | zero =>
    intro n a acc h
    have h10 : n < 10 := by simpa using h
    have hdiv : n / 10 = 0 := Nat.div_eq_of_lt h10
    have hmod : n % 10 = n := Nat.mod_eq_of_lt h10
    have hp : pmag n = 10 := by rw [pmag_eq, if_pos h10]
    rw [toDigitsCore_succ, if_pos hdiv, decList_cons, hmod,
      decDigit_digitChar n h10, hp, Nat.mul_comm a 10]
  | succ f ih =>
    intro n a acc h
    by_cases hdiv : n / 10 = 0
    · have h10 : n < 10 := by omega
      have hmod : n % 10 = n := Nat.mod_eq_of_lt h10
      have hp : pmag n = 10 := by rw [pmag_eq, if_pos h10]
      rw [toDigitsCore_succ, if_pos hdiv, decList_cons, hmod,
        decDigit_digitChar n h10, hp, Nat.mul_comm a 10]
    · have h10 : ¬ n < 10 := by omega
      have hlt : n / 10 < 10 ^ (f + 1) := by
        rw [Nat.div_lt_iff_lt_mul (by omega : 0 < 10)]
        calc n < 10 ^ (f + 1 + 1) := h
        _ = 10 ^ (f + 1) * 10 := by rw [pow_succ]
      have hmod : n % 10 < 10 := Nat.mod_lt _ (by omega)
      rw [toDigitsCore_succ, if_neg hdiv, ih (n / 10) a _ hlt, decList_cons,
        decDigit_digitChar _ hmod]
      have hp : pmag n = 10 * pmag (n / 10) := by rw [pmag_eq, if_neg h10]
      have harg : 10 * (a * pmag (n / 10) + n / 10) + n % 10 =
          a * (10 * pmag (n / 10)) + (10 * (n / 10) + n % 10) := by ring
      rw [harg, Nat.div_add_mod, ← hp]

theorem decList_nil (a : Nat) : decList a [] = a := rfl

theorem decList_toDigits (n : Nat) : decList 0 (Nat.toDigits 10 n) = n := by
  have h : n < 10 ^ (n + 1) := by
    calc n < 10 ^ n := Nat.lt_pow_self (by omega) n
    _ ≤ 10 ^ (n + 1) := Nat.pow_le_pow_right (by omega) (Nat.le_succ n)
  have h2 := decList_toDigitsCore n n 0 [] h
  rw [decList_nil] at h2
  have hdef : Nat.toDigits 10 n = Nat.toDigitsCore 10 (n + 1) n [] := rfl
  rw [hdef, h2, Nat.zero_mul, Nat.zero_add]

theorem repr_data_inj {x y : Nat}
    (h : (Nat.repr x).data = (Nat.repr y).data) : x = y := by
  have hx := decList_toDigits x
  have hy := decList_toDigits y
  have hdx : (Nat.repr x).data = Nat.toDigits 10 x := rfl
  have hdy : (Nat.repr y).data = Nat.toDigits 10 y := rfl
  rw [hdx, hdy] at h
  rw [← hx, ← hy, h]

theorem repr_inj {x y : Nat} (h : Nat.repr x = Nat.repr y) : x = y :=
  repr_data_inj (congrArg String.data h)

theorem tag_inj {s : String} {x y : Nat}
    (h : s ++ "-" ++ Nat.repr x = s ++ "-" ++ Nat.repr y) : x = y := by
  have hd := congrArg String.data h
  simp only [String.data_append, List.append_assoc] at hd
  exact repr_data_inj (List.append_cancel_left (List.append_cancel_left hd))

theorem legendLoop_get? (id2label : Nat → String) (viridis : Nat → Nat) :
    ∀ (segs : List SegmentInfo) (c : Nat → Nat) (k : Nat) (s : SegmentInfo),
      segs[k]? = some s →
      ∃ m, (legendLoop id2label viridis c segs)[k]? =
        some (viridis s.id, id2label s.label_id ++ "-" ++ Nat.repr (c s.label_id + m)) := by
  intro segs
  induction segs with
  | nil => intro c k s hs; simp at hs
  | cons seg rest ih =>
    intro c k s hs
    cases k with
    | zero =>
      simp only [List.getElem?_cons_zero, Option.some.injEq] at hs
      subst hs
      exact ⟨0, by simp [legendLoop]⟩
    | succ k =>
      simp only [List.getElem?_cons_succ] at hs
      by_cases hlab : (s.label_id) = seg.label_id
      · obtain ⟨m, hm⟩ := ih
          (fun k => if k = seg.label_id then c k + 1 else c k) k s hs
        refine ⟨m + 1, ?_⟩
        simp only [legendLoop, List.getElem?_cons_succ]
        rw [hm]
        have harg : (if s.label_id = seg.label_id then c s.label_id + 1
            else c s.label_id) + m = c s.label_id + (m + 1) := by
          rw [if_pos hlab]; omega
        rw [harg]
      · obtain ⟨m, hm⟩ := ih
          (fun k => if k = seg.label_id then c k + 1 else c k) k s hs
        refine ⟨m, ?_⟩
        simp only [legendLoop, List.getElem?_cons_succ]
        rw [hm]
        simp only [if_neg hlab]

theorem legendLoop_label_ne (id2label : Nat → String) (viridis : Nat → Nat) :
    ∀ (segs : List SegmentInfo) (c : Nat → Nat) (i j : Nat)
      (si sj : SegmentInfo), i < j →
      segs[i]? = some si → segs[j]? = some sj →
      si.label_id = sj.label_id →
      ((legendLoop id2label viridis c segs)[i]?).map Prod.snd ≠
        ((legendLoop id2label viridis c segs)[j]?).map Prod.snd := by
  intro segs
  induction segs with
  | nil => intro c i j si sj _ hi _ _; simp at hi
  | cons seg rest ih =>
    intro c i j si sj hij hi hj hlab
    cases j with
    | zero => omega
    | succ j =>
      simp only [List.getElem?_cons_succ] at hj
      cases i with
      | zero =>
        simp only [List.getElem?_cons_zero, Option.some.injEq] at hi
        subst hi
        obtain ⟨m, hm⟩ := legendLoop_get? id2label viridis rest
          (fun k => if k = seg.label_id then c k + 1 else c k) j sj hj
        simp only [legendLoop, List.getElem?_cons_zero, List.getElem?_cons_succ]
        rw [hm]
        have hcnt : (if sj.label_id = seg.label_id then c sj.label_id + 1
            else c sj.label_id) + m = c seg.label_id + (m + 1) := by
          rw [if_pos hlab.symm, hlab.symm]; omega
        rw [hcnt, ← hlab]
        intro hcontra
        simp at hcontra
        exact absurd (tag_inj hcontra) (by omega)
      | succ i =>
        simp only [List.getElem?_cons_succ] at hi
        simp only [legendLoop, List.getElem?_cons_succ]
        exact ih (fun k => if k = seg.label_id then c k + 1 else c k)
          i j si sj (by omega) hi hj hlab

/-- C10: in the panoptic and instance drawing functions, legend labels are
unique across segments: any two distinct positions of `segments_info` whose
entries share the same `label_id` receive distinct labels, because the label
is the class name suffixed with a per-`label_id` counter that increments
after each use. -/
theorem legend_labels_unique (id2label : Nat → String) (viridis : Nat → Nat)
    (segments_info : List SegmentInfo) (i j : Nat) (si sj : SegmentInfo)
    (hi : segments_info[i]? = some si) (hj : segments_info[j]? = some sj)
    (hne : i ≠ j) (hlab : si.label_id = sj.label_id) :
    ((draw_panoptic_segmentation id2label viridis segments_info)[i]?).map Prod.snd ≠
      ((draw_panoptic_segmentation id2label viridis segments_info)[j]?).map Prod.snd ∧
    ((draw_instance_segmentation id2label viridis segments_info)[i]?).map Prod.snd ≠
      ((draw_instance_segmentation id2label viridis segments_info)[j]?).map Prod.snd := by
  have hcore : ((legendLoop id2label viridis (fun _ => 0) segments_info)[i]?).map Prod.snd ≠
      ((legendLoop id2label viridis (fun _ => 0) segments_info)[j]?).map Prod.snd := by
    rcases Nat.lt_or_ge i j with hlt | hge
    · exact legendLoop_label_ne id2label viridis segments_info
        (fun _ => 0) i j si sj hlt hi hj hlab
    · have hlt : j < i := by omega
      exact (legendLoop_label_ne id2label viridis segments_info
        (fun _ => 0) j i sj si hlt hj hi hlab.symm).symm
  exact ⟨hcore, hcore⟩

/-- Witness for C10 at a concrete input: two segments with the same
`label_id` get the labels cat-0 and cat-1. -/
theorem legend_labels_unique_witness :
    ((draw_panoptic_segmentation (fun _ => "cat") (fun x => x)
        [⟨5, 3⟩, ⟨7, 3⟩])[0]?).map Prod.snd ≠
      ((draw_panoptic_segmentation (fun _ => "cat") (fun x => x)
        [⟨5, 3⟩, ⟨7, 3⟩])[1]?).map Prod.snd ∧
    ((draw_instance_segmentation (fun _ => "cat") (fun x => x)
        [⟨5, 3⟩, ⟨7, 3⟩])[0]?).map Prod.snd ≠
      ((draw_instance_segmentation (fun _ => "cat") (fun x => x)
        [⟨5, 3⟩, ⟨7, 3⟩])[1]?).map Prod.snd :=
  legend_labels_unique (fun _ => "cat") (fun x => x) [⟨5, 3⟩, ⟨7, 3⟩]
    0 1 ⟨5, 3⟩ ⟨7, 3⟩ (by decide) (by decide) (by decide) (by decide)

/-- C8: the TAPAS answer-assembly logic: a coordinate list of length one
yields the single cell value at that coordinate, any other length yields the
list of cell values at all coordinates in order; and the printed answer line
includes the aggregation index exactly when that index is nonzero. -/
theorem tapas_answer_assembly (iat : Nat × Nat → String)
    (coordsList : List (List (Nat × Nat))) (i : Nat)
    (coordinates : List (Nat × Nat)) (hc : coordsList[i]? = some coordinates)
    (questions : List String) (numbers : List Int) (answers : List Answer)
    (j : Nat) (hj : j < questions.length) :
    (coordinates.length = 1 →
      (parseAnswers iat coordsList)[i]? =
        some (Answer.single (iat coordinates.head!))) ∧
    (coordinates.length ≠ 1 →
      (parseAnswers iat coordsList)[i]? =
        some (Answer.multi (coordinates.map fun coordinate => iat coordinate))) ∧
    ((printAnswers questions numbers answers)[j]?).map
        (fun p => p.2.includesAgg) = some (numbers.getD j 0 != 0) := by
  refine ⟨?_, ?_, ?_⟩
  · intro hlen
    simp [parseAnswers, List.getElem?_map, hc, hlen]
  · intro hlen
    simp [parseAnswers, List.getElem?_map, hc, hlen]
  · by_cases h0 : numbers.getD j 0 = 0
    · rw [List.getD_eq_getElem?_getD] at h0
      simp [printAnswers, List.getElem?_map, List.getElem?_range, hj, h0,
        PrintedAnswer.includesAgg, List.getD_eq_getElem?_getD]
    · rw [List.getD_eq_getElem?_getD] at h0
      simp [printAnswers, List.getElem?_map, List.getElem?_range, hj, h0,
        PrintedAnswer.includesAgg, List.getD_eq_getElem?_getD, bne_iff_ne]

/-- Counterexample for C1: the claim that every authored code unit is only
assertions against constants plus a straight-line sequential call chain is
false on the embedded corpus; the TAPAS answer-parsing cell is a concrete
failing unit (it branches on coordinate-list length and on the aggregation
index). -/
theorem authored_logic_not_straight_line :
    claimC1Stated = false ∧
    chainListStated tapasParseAnswers.body = false ∧
    (allUnits.map CodeUnit.name).contains "tapas_parse_answers" = true := by
  decide

/-- C1 (amended): every authored code cell and test method is free of
conditional branching except the three drawing cells and the TAPAS
answer-parsing cell, whose bodies branch (tensor-type checks, answer
assembly, aggregation formatting); all other units are assertion and
sequential-call statements, possibly iterated over a result collection. -/
theorem authored_logic_branching_confined :
    allUnits.all
      (fun u => branchingUnits.contains u.name || branchFreeList u.body) = true := by
  decide

/-- Counterexample for C2: not every check of the compiled test suite is an
equality against a single EXPECTED constant; `test_conditioning` contains an
`assertIsNone` check that names no EXPECTED constant (its `assertTrue`
checks are approximate `allclose` comparisons and `test_sampling` uses
`assertIn` membership in a pair of EXPECTED constants). -/
theorem suite_checks_not_all_equality :
    claimC2Stated = false ∧
    (assertsOf jb1bConditioningBody).any
      (fun a => a.1 = "assertIsNone" && a.2.1 = AssertKind.isNone &&
        a.2.2.isEmpty) = true := by
  decide

/-- C2 (amended): every check performed by the compiled test suite is one of
equality against an EXPECTED constant, membership in a list of EXPECTED
constants, an approximate allclose comparison against an EXPECTED constant,
or a None-ness check of an intermediate conditioning value; every check that
names constants names only EXPECTED_* constants. -/
theorem suite_checks_shape :
    jukeboxTestUnits.all
      (fun u => (assertsOf u.body).all fun a =>
        (a.2.1 = AssertKind.eqExpected || a.2.1 = AssertKind.inExpectedList ||
          a.2.1 = AssertKind.allcloseExpected || a.2.1 = AssertKind.isNone) &&
        (a.2.1 = AssertKind.isNone ||
          (!a.2.2.isEmpty &&
            a.2.2.all fun e => strStarts "EXPECTED_" e))) = true := by
  decide

/-- C3: the compiled test artifact exercises exactly the Jukebox sampling,
conditioning, priming and VQ-VAE encode/decode paths: `test_sampling`
samples and compares token outputs against EXPECTED constants,
`test_conditioning` checks the conditioning tensors, `test_primed_sampling`
primes sampling from an encoded waveform, `test_vqvae` encodes then decodes,
and every model-API call of the module is on one of those paths (plus
checkpoint/tokenizer loading). -/
theorem suite_exercises_four_paths :
    ((callsOf jb1bSamplingBody).any fun c => c.callee = "model._sample") = true ∧
    ((assertsOf jb1bSamplingBody).all fun a =>
      a.2.1 = AssertKind.inExpectedList) = true ∧
    ((assertsOf jb1bSamplingBody).any fun a =>
      a.2.2.contains "EXPECTED_OUTPUT_2") = true ∧
    assertsOf jb1bConditioningBody =
      [("assertIsNone", AssertKind.isNone, []),
       ("assertListEqual", AssertKind.eqExpected, ["EXPECTED_Y_COND"]),
       ("assertTrue", AssertKind.allcloseExpected, ["EXPECTED_AUDIO_COND"]),
       ("assertTrue", AssertKind.allcloseExpected, ["EXPECTED_META_COND"]),
       ("assertTrue", AssertKind.allcloseExpected, ["EXPECTED_LYRIC_COND"])] ∧
    ((callsOf jb1bPrimedBody).any fun c => c.callee = "model.vqvae.encode") = true ∧
    ((callsOf jb1bPrimedBody).any fun c => c.callee = "model._sample") = true ∧
    ((assertsOf jb1bPrimedBody).any fun a =>
      a.2.2.contains "EXPECTED_PRIMED_0") = true ∧
    assertsOf jb1bVqvaeBody =
      [("assertTrue", AssertKind.allcloseExpected, ["EXPECTED_VQVAE_ENCODE"]),
       ("assertTrue", AssertKind.allcloseExpected, ["EXPECTED_VQVAE_DECODE"])] ∧
    ((callsOf jb1bVqvaeBody).any fun c => c.callee = "model.vqvae.decode") = true ∧
    ((jukeboxTestMethods.map CodeUnit.name).contains
      "Jukebox1bModelTester.test_sampling") = true ∧
    jukeboxPathsOnly = true := by
  decide

/-- Counterexample for C4: not every externally visible effect of the
authored code goes through the pretrained-model API or the harness: the
OneFormer image-load cell downloads the COCO image over HTTP with
`requests.get`, and the drawing cells write `cats_panoptic.png` with
`plt.savefig`. -/
theorem effects_beyond_api_and_harness :
    claimC4Stated = false ∧
    allCalls.contains requestsGetCall = true ∧
    requestsGetCall.effect = Effect.httpDownload ∧
    allCalls.contains savefigCall = true ∧
    savefigCall.effect = Effect.fileWrite := by
  decide

/-- C4 (amended): every call of the authored code is pure, a
pretrained-model API call, or a harness output, except exactly the
`requests.get` image download and the `plt.savefig` PNG write. -/
theorem effects_confined :
    allCalls.all
      (fun c => c.effect = Effect.pure || c.effect = Effect.modelApi ||
        c.effect = Effect.harness || c = requestsGetCall ||
        c = savefigCall) = true := by
  decide

/-- C5: no authored code handles errors itself or defines a custom exception
type: there is no try/except statement anywhere in the embedded corpus, and
the only class definitions are the two tester classes extending
`unittest.TestCase`. -/
theorem no_error_handling :
    (allFlat.all fun s => ! s.isTry) = true ∧
    classesOf allAuthoredStmts =
      [("Jukebox1bModelTester", ["unittest.TestCase"]),
       ("Jukebox5bModelTester", ["unittest.TestCase"])] := by
  decide

/-- C6: the notebooks demonstrate inference with the pretrained OneFormer
universal-segmentation model (panoptic, semantic and instance tasks selected
through task_inputs strings) and the pretrained TAPAS
table-question-answering model, each loaded by checkpoint name. -/
theorem notebooks_demonstrate_pretrained_inference :
    allCalls.contains
      ⟨"AutoProcessor.from_pretrained",
       ["shi-labs/oneformer_coco_swin_large"], .modelApi⟩ = true ∧
    allCalls.contains
      ⟨"AutoModelForUniversalSegmentation.from_pretrained",
       ["shi-labs/oneformer_coco_swin_large"], .modelApi⟩ = true ∧
    allCalls.contains ⟨"processor", ["panoptic", "ms"], .modelApi⟩ = true ∧
    allCalls.contains ⟨"processor", ["semantic", "ms"], .modelApi⟩ = true ∧
    allCalls.contains ⟨"processor", ["instance", "ms"], .modelApi⟩ = true ∧
    (allFlat.any fun s =>
      match s with
      | .assign targets _ lits _ =>
          targets.contains "model_name" &&
            lits.contains "google/tapas-base-finetuned-wtq"
      | _ => false) = true ∧
    allCalls.contains
      ⟨"TapasForQuestionAnswering.from_pretrained", [], .modelApi⟩ = true ∧
    allCalls.contains
      ⟨"TapasTokenizer.from_pretrained", [], .modelApi⟩ = true := by
  decide

/-- C7: every authored operation is a synchronous, single-threaded call: the
embedded corpus contains no async or thread-spawning statement, no call with
a thread-spawning effect, and no import of a concurrency module. -/
theorem no_concurrency :
    (allFlat.all fun s => ! s.isAsync) = true ∧
    (allCalls.all fun c => c.effect ≠ Effect.spawnThread) = true ∧
    ((importsOf allAuthoredStmts).all fun m =>
      m ≠ "threading" && m ≠ "asyncio" && m ≠ "multiprocessing" &&
        m ≠ "concurrent.futures") = true := by
  decide

/-- C9: running the TAPAS notebook cells in their written order always fails
at the tokenization statement with an unbound-name error on `question`
before any model forward pass: the run fails at cell 3 statement 0, the
executed-call trace contains neither the tokenizer call nor the forward
pass, and the preceding cells bind `questions` but not `question`. -/
theorem tapas_notebook_unbound_question :
    (runNotebook tapasCells).failure = some (3, 0, "question") ∧
    ((runNotebook tapasCells).trace.all fun c =>
      c.callee ≠ "model.forward" && c.callee ≠ "tokenizer") = true ∧
    (runNotebook (tapasCells.take 3)).failure = none ∧
    (runNotebook (tapasCells.take 3)).env.contains "questions" = true ∧
    (runNotebook (tapasCells.take 3)).env.contains "question" = false ∧
    (tapasCells.map CodeUnit.name)[3]? = some "tapas_tokenize_forward" := by
  decide

/-- Witness for C8 at a concrete input: one single-cell question and its
printed aggregation behavior. -/
theorem tapas_answer_assembly_witness :
    (([(1, 2)] : List (Nat × Nat)).length = 1 →
      (parseAnswers (fun _ => "v") [[(1, 2)]])[0]? =
        some (Answer.single ((fun _ => "v") ([(1, 2)] : List (Nat × Nat)).head!))) ∧
    (([(1, 2)] : List (Nat × Nat)).length ≠ 1 →
      (parseAnswers (fun _ => "v") [[(1, 2)]])[0]? =
        some (Answer.multi (([(1, 2)] : List (Nat × Nat)).map
          fun coordinate => (fun _ => "v") coordinate))) ∧
    ((printAnswers ["q"] [3] [Answer.single "v"])[0]?).map
        (fun p => p.2.includesAgg) = some (([3] : List Int).getD 0 0 != 0) :=
  tapas_answer_assembly (fun _ => "v") [[(1, 2)]] 0 [(1, 2)] (by decide)
    ["q"] [3] [Answer.single "v"] 0 (by decide)

end MindnlpRepo
